import Mathlib

/- Verification of the string-similarity engine of nu_plugin_str_similarity.
   The engine lives in src/src/main.rs: the algorithm catalog, name/alias
   resolution with its levenshtein fallback, the dispatcher over the
   textdistance metric functions, the all-algorithms aggregator, and the
   integer/float result coercion.  The textdistance crate itself is an external
   dependency whose sources are not part of this repository, so the metric
   functions are treated as an arbitrary table of pure functions; every
   statement about the engine logic is proved for every such table, and a
   concrete table (with the dynamic-programming levenshtein distance that the
   spec mandates) instantiates the concrete scenarios. -/

/-- Model of the nu_protocol Value variants that src/src/main.rs constructs or
inspects: integers, floats (modelled exactly, as rationals), strings, booleans,
records (ordered field-name/value pairs) and lists; `nothing` stands for any
non-string pipeline input.  Spans are runtime metadata and are not modelled. -/
inductive NuValue where
  | int : Int → NuValue
  | float : ℚ → NuValue
  | string : String → NuValue
  | bool : Bool → NuValue
  | record : List (String × NuValue) → NuValue
  | list : List NuValue → NuValue
  | nothing : NuValue

/-- Dynamic type name of a value, as produced by Value::get_type inside the
pipeline-input error message of run (src/src/main.rs lines 114-120). -/
def NuValue.typeName : NuValue → String
  | .int _ => "int"
  | .float _ => "float"
  | .string _ => "string"
  | .bool _ => "bool"
  | .record _ => "record"
  | .list _ => "list"
  | .nothing => "nothing"

/-- Model of nu_plugin::LabeledError: the label and message carried by the two
error returns of run; the span field is runtime metadata and is not modelled. -/
structure LabeledError where
  label : String
  msg : String

/-- Interface of one textdistance module: one metric function per catalog
algorithm, mapping two strings to a number (numbers are modelled as rationals).
The crate is an external dependency, not part of this repository, so the
functions are left abstract; `pfx` stands for the crate function named after
the prefix metric (that identifier is reserved here). -/
structure TextDistanceFns where
  bag : String → String → ℚ
  cosine : String → String → ℚ
  damerau_levenshtein : String → String → ℚ
  entropy_ncd : String → String → ℚ
  hamming : String → String → ℚ
  jaccard : String → String → ℚ
  jaro : String → String → ℚ
  jaro_winkler : String → String → ℚ
  levenshtein : String → String → ℚ
  lcsseq : String → String → ℚ
  lcsstr : String → String → ℚ
  length : String → String → ℚ
  lig3 : String → String → ℚ
  mlipns : String → String → ℚ
  overlap : String → String → ℚ
  pfx : String → String → ℚ
  ratcliff_obershelp : String → String → ℚ
  roberts : String → String → ℚ
  sift4_common : String → String → ℚ
  sift4_simple : String → String → ℚ
  smith_waterman : String → String → ℚ
  sorensen_dice : String → String → ℚ
  suffix : String → String → ℚ
  tversky : String → String → ℚ
  yujian_bo : String → String → ℚ

/-- The two textdistance modules imported by src/src/main.rs line 7: the raw
metrics (module str) and the normalized metrics (module nstr). -/
structure TextDistance where
  str : TextDistanceFns
  nstr : TextDistanceFns

/-- Model of Rust str::to_lowercase as used on algorithm identifiers
(src/src/main.rs line 179): lower-case every character. -/
def toLowerStr (s : String) : String := String.mk (s.data.map Char.toLower)

/-- Body of the match in compute (src/src/main.rs lines 180-207): the lowered
identifier is compared against each arm's patterns in order; every arm selects
the normalized (nstr) metric when norm is set and the raw (str) metric
otherwise, and the final wildcard arm falls back to levenshtein. -/
def dispatch (td : TextDistance) (sim s1 s2 : String) (norm : Bool) : ℚ :=
  if sim = "bag" then (if norm then td.nstr.bag s1 s2 else td.str.bag s1 s2)
  else if sim = "cos" ∨ sim = "cosine" then
    (if norm then td.nstr.cosine s1 s2 else td.str.cosine s1 s2)
  else if sim = "dlev" ∨ sim = "damerau_levenshtein" then
    (if norm then td.nstr.damerau_levenshtein s1 s2 else td.str.damerau_levenshtein s1 s2)
  else if sim = "entncd" ∨ sim = "entropy_ncd" then
    (if norm then td.nstr.entropy_ncd s1 s2 else td.str.entropy_ncd s1 s2)
  else if sim = "ham" ∨ sim = "hamming" then
    (if norm then td.nstr.hamming s1 s2 else td.str.hamming s1 s2)
  else if sim = "jac" ∨ sim = "jaccard" then
    (if norm then td.nstr.jaccard s1 s2 else td.str.jaccard s1 s2)
  else if sim = "jar" ∨ sim = "jaro" then
    (if norm then td.nstr.jaro s1 s2 else td.str.jaro s1 s2)
  else if sim = "jarw" ∨ sim = "jaro_winkler" then
    (if norm then td.nstr.jaro_winkler s1 s2 else td.str.jaro_winkler s1 s2)
  else if sim = "lev" ∨ sim = "levenshtein" then
    (if norm then td.nstr.levenshtein s1 s2 else td.str.levenshtein s1 s2)
  else if sim = "lcsubseq" ∨ sim = "longest_common_subsequence" then
    (if norm then td.nstr.lcsseq s1 s2 else td.str.lcsseq s1 s2)
  else if sim = "lcsubstr" ∨ sim = "longest_common_substring" then
    (if norm then td.nstr.lcsstr s1 s2 else td.str.lcsstr s1 s2)
  else if sim = "len" ∨ sim = "length" then
    (if norm then td.nstr.length s1 s2 else td.str.length s1 s2)
  else if sim = "lig" ∨ sim = "lig3" then
    (if norm then td.nstr.lig3 s1 s2 else td.str.lig3 s1 s2)
  else if sim = "mli" ∨ sim = "mlipns" then
    (if norm then td.nstr.mlipns s1 s2 else td.str.mlipns s1 s2)
  else if sim = "olap" ∨ sim = "overlap" then
    (if norm then td.nstr.overlap s1 s2 else td.str.overlap s1 s2)
  else if sim = "pre" ∨ sim = "prefix" then
    (if norm then td.nstr.pfx s1 s2 else td.str.pfx s1 s2)
  else if sim = "rat" ∨ sim = "ratcliff_obershelp" then
    (if norm then td.nstr.ratcliff_obershelp s1 s2 else td.str.ratcliff_obershelp s1 s2)
  else if sim = "rob" ∨ sim = "roberts" then
    (if norm then td.nstr.roberts s1 s2 else td.str.roberts s1 s2)
  else if sim = "scom" ∨ sim = "sift4_common" then
    (if norm then td.nstr.sift4_common s1 s2 else td.str.sift4_common s1 s2)
  else if sim = "ssim" ∨ sim = "sift4_simple" then
    (if norm then td.nstr.sift4_simple s1 s2 else td.str.sift4_simple s1 s2)
  else if sim = "smithw" ∨ sim = "smith_waterman" then
    (if norm then td.nstr.smith_waterman s1 s2 else td.str.smith_waterman s1 s2)
  else if sim = "soredice" ∨ sim = "sorensen_dice" then
    (if norm then td.nstr.sorensen_dice s1 s2 else td.str.sorensen_dice s1 s2)
  else if sim = "suf" ∨ sim = "suffix" then
    (if norm then td.nstr.suffix s1 s2 else td.str.suffix s1 s2)
  else if sim = "tv" ∨ sim = "tversky" then
    (if norm then td.nstr.tversky s1 s2 else td.str.tversky s1 s2)
  else if sim = "ybo" ∨ sim = "yujian_bo" then
    (if norm then td.nstr.yujian_bo s1 s2 else td.str.yujian_bo s1 s2)
  else (if norm then td.nstr.levenshtein s1 s2 else td.str.levenshtein s1 s2)

/-- compute (src/src/main.rs lines 178-208): lower-case the identifier, then
select the metric by the match above.  Total by construction: every identifier
yields a number. -/
def compute (td : TextDistance) (a s1 s2 : String) (norm : Bool) : ℚ :=
  dispatch td (toLowerStr a) s1 s2 norm

/-- Truncation of a rational toward zero, modelling the f64 truncation
underlying f64::fract and the `as i64` cast in the coercion sites
(src/src/main.rs lines 160-164 and 260-270). -/
def truncInt (v : ℚ) : ℤ := Int.tdiv v.num v.den

/-- Fractional part of a rational, modelling f64::fract (value minus its
truncation toward zero); written with mkRat so that it evaluates. -/
def fract (v : ℚ) : ℚ := mkRat (v.num - v.den * truncInt v) v.den

/-- Result Coercion (spec §4.5) as one reusable rule: a number whose fractional
part is exactly zero is presented as the exact integer, any other number as the
fractional value unchanged. -/
def coerceVal (v : ℚ) : NuValue :=
  if fract v = 0 then NuValue.int (truncInt v) else NuValue.float v

/-- compare_strings (src/src/main.rs lines 248-271): the single-algorithm path.
The pipeline input (input_val) is the first operand and the command argument
(compare_to_str) is the second operand of compute; the result is coerced to an
integer when its fractional part is zero, otherwise kept as a float. -/
def compare_strings (td : TextDistance) (sim_algo : String) (compare_to_str : String)
    (normalize : Bool) (input_val : String) : Except LabeledError NuValue :=
  let compare_from := input_val
  let compare_to := compare_to_str
  let a_val := compute td sim_algo compare_from compare_to normalize
  if fract a_val = 0 then Except.ok (NuValue.int (truncInt a_val))
  else Except.ok (NuValue.float a_val)

/-- The fixed algorithm list iterated by compute_all (src/src/main.rs lines
129-155), in source order. -/
def algos : List String :=
  ["bag", "cosine", "damerau_levenshtein", "entropy_ncd", "hamming", "jaccard",
   "jaro", "jaro_winkler", "levenshtein", "longest_common_subsequence",
   "longest_common_substring", "length", "lig3", "mlipns", "overlap", "prefix",
   "ratcliff_obershelp", "roberts", "sift4_common", "sift4_simple",
   "smith_waterman", "sorensen_dice", "suffix", "tversky", "yujian_bo"]

/-- compute_all (src/src/main.rs lines 127-175): for every catalog name in the
fixed order, compute the metric on (s1, s2), coerce the value, and emit a
record row with the algorithm name and its distance; the rows are returned as
one list and no arm produces an error. -/
def compute_all (td : TextDistance) (s1 s2 : String) (norm : Bool) :
    Except LabeledError NuValue :=
  let rows := algos.map (fun algo =>
    let sim := NuValue.string algo
    let val_comp := compute td algo s1 s2 norm
    let val := if fract val_comp = 0 then NuValue.int (truncInt val_comp)
      else NuValue.float val_comp
    NuValue.record [("algorithm", sim), ("distance", val)])
  Except.ok (NuValue.list rows)

/-- list_algorithms (src/src/main.rs lines 211-246): the fixed table of
(algorithm, alias) rows pushed in source order. -/
def list_algorithms : NuValue :=
  NuValue.list
    [NuValue.record [("algorithm", NuValue.string "bag"), ("alias", NuValue.string "bag")],
     NuValue.record [("algorithm", NuValue.string "cosine"), ("alias", NuValue.string "cos")],
     NuValue.record [("algorithm", NuValue.string "damerau_levenshtein"), ("alias", NuValue.string "dlev")],
     NuValue.record [("algorithm", NuValue.string "entropy_ncd"), ("alias", NuValue.string "entncd")],
     NuValue.record [("algorithm", NuValue.string "hamming"), ("alias", NuValue.string "ham")],
     NuValue.record [("algorithm", NuValue.string "jaccard"), ("alias", NuValue.string "jac")],
     NuValue.record [("algorithm", NuValue.string "jaro"), ("alias", NuValue.string "jar")],
     NuValue.record [("algorithm", NuValue.string "jaro_winkler"), ("alias", NuValue.string "jarw")],
     NuValue.record [("algorithm", NuValue.string "levenshtein"), ("alias", NuValue.string "lev")],
     NuValue.record [("algorithm", NuValue.string "longest_common_subsequence"), ("alias", NuValue.string "lcsubseq")],
     NuValue.record [("algorithm", NuValue.string "longest_common_substring"), ("alias", NuValue.string "lcsubstr")],
     NuValue.record [("algorithm", NuValue.string "length"), ("alias", NuValue.string "len")],
     NuValue.record [("algorithm", NuValue.string "lig3"), ("alias", NuValue.string "lig")],
     NuValue.record [("algorithm", NuValue.string "mlipns"), ("alias", NuValue.string "mli")],
     NuValue.record [("algorithm", NuValue.string "overlap"), ("alias", NuValue.string "olap")],
     NuValue.record [("algorithm", NuValue.string "prefix"), ("alias", NuValue.string "pre")],
     NuValue.record [("algorithm", NuValue.string "ratcliff_obershelp"), ("alias", NuValue.string "rat")],
     NuValue.record [("algorithm", NuValue.string "roberts"), ("alias", NuValue.string "rob")],
     NuValue.record [("algorithm", NuValue.string "sift4_common"), ("alias", NuValue.string "scom")],
     NuValue.record [("algorithm", NuValue.string "sift4_simple"), ("alias", NuValue.string "ssim")],
     NuValue.record [("algorithm", NuValue.string "smith_waterman"), ("alias", NuValue.string "smithw")],
     NuValue.record [("algorithm", NuValue.string "sorensen_dice"), ("alias", NuValue.string "soredice")],
     NuValue.record [("algorithm", NuValue.string "suffix"), ("alias", NuValue.string "suf")],
     NuValue.record [("algorithm", NuValue.string "tversky"), ("alias", NuValue.string "tv")],
     NuValue.record [("algorithm", NuValue.string "yujian_bo"), ("alias", NuValue.string "ybo")]]

/-- run (src/src/main.rs lines 72-124), restricted to the engine-relevant data
of the call: the optional positional argument, the normalize/list/all switches,
the optional algorithm flag (well-typed as a string, per the declared
SyntaxShape), and the pipeline input value.  The positional-argument check
comes first, then the list flag, then the pipeline-input match with its
all-flag split. -/
def run (td : TextDistance) (compare_to_str_optn : Option String)
    (normalize list : Bool) (algo : Option String) (all : Bool)
    (input : NuValue) : Except LabeledError NuValue :=
  match compare_to_str_optn with
  | none => Except.error ⟨"Expected a string as a parameter", "found nothing"⟩
  | some compare_to_str =>
    if list then Except.ok list_algorithms
    else
      let sim := match algo with
        | some a => a
        | none => "levenshtein"
      match input with
      | NuValue.string input_val =>
          if all then compute_all td compare_to_str input_val normalize
          else compare_strings td sim compare_to_str normalize input_val
      | v => Except.error ⟨"Expected something from pipeline",
          "requires some input, got " ++ v.typeName⟩

/-- The fixed ordered catalog of spec §4.1, written from the spec for
comparison with the source-derived algos list and list_algorithms table: the 25
(canonical_name, alias) pairs, bag first, yujian_bo last. -/
def specCatalogPairs : List (String × String) :=
  [("bag", "bag"), ("cosine", "cos"), ("damerau_levenshtein", "dlev"),
   ("entropy_ncd", "entncd"), ("hamming", "ham"), ("jaccard", "jac"),
   ("jaro", "jar"), ("jaro_winkler", "jarw"), ("levenshtein", "lev"),
   ("longest_common_subsequence", "lcsubseq"),
   ("longest_common_substring", "lcsubstr"), ("length", "len"),
   ("lig3", "lig"), ("mlipns", "mli"), ("overlap", "olap"),
   ("prefix", "pre"), ("ratcliff_obershelp", "rat"), ("roberts", "rob"),
   ("sift4_common", "scom"), ("sift4_simple", "ssim"),
   ("smith_waterman", "smithw"), ("sorensen_dice", "soredice"),
   ("suffix", "suf"), ("tversky", "tv"), ("yujian_bo", "ybo")]

/-- The 25 canonical names of spec §4.1, in catalog order. -/
def canonicalNames : List String := specCatalogPairs.map Prod.fst

/-- The 25 aliases of spec §4.1, in catalog order. -/
def aliasNames : List String := specCatalogPairs.map Prod.snd

/-- Modelled from the spec: the textdistance crate (the metric implementations
of spec §4.3) is not part of this repository, so the one metric whose value the
spec pins down exactly is modelled here: the classic dynamic-programming
levenshtein edit distance (spec §8: the value must match the
dynamic-programming edit distance).  This is the row-update step: given the
previous row and the next character of the first string, produce the tail of
the next row. -/
def levAux (a : Char) : List Char → List Nat → Nat → List Nat
  | [], _, _ => []
  | _, [], _ => []
  | b :: tb, diag :: rest, leftv =>
      let v := min (min (rest.headD 0 + 1) (leftv + 1))
        (diag + (if a = b then 0 else 1))
      v :: levAux a tb rest v

/-- Modelled from the spec: one full row update of the levenshtein dynamic
program. -/
def levStep (t : List Char) (row : List Nat) (a : Char) : List Nat :=
  let h0 := row.headD 0 + 1
  h0 :: levAux a t row h0

/-- Modelled from the spec: the classic dynamic-programming levenshtein edit
distance between two character sequences (spec §4.3 edit-distance family and
§8). -/
def levenshteinDP (s t : List Char) : Nat :=
  (s.foldl (levStep t) (List.range (t.length + 1))).getLastD 0

/-- Modelled from the spec: a concrete metric table instantiating the abstract
textdistance interface for the concrete scenarios.  The spec fixes exactly the
levenshtein metrics: the raw metric is the dynamic-programming edit distance,
and the normalized metric is the distance divided by the longer length (0 for
two empty strings), so that identical strings have normalized distance 0 (spec
§8).  Every other metric is library-defined (spec §4.3 fixes only its family);
no claim below depends on any of their values, and they are instantiated by the
constant-zero function. -/
def zeroFns : TextDistanceFns where
  bag := fun _ _ => 0
  cosine := fun _ _ => 0
  damerau_levenshtein := fun _ _ => 0
  entropy_ncd := fun _ _ => 0
  hamming := fun _ _ => 0
  jaccard := fun _ _ => 0
  jaro := fun _ _ => 0
  jaro_winkler := fun _ _ => 0
  levenshtein := fun _ _ => 0
  lcsseq := fun _ _ => 0
  lcsstr := fun _ _ => 0
  length := fun _ _ => 0
  lig3 := fun _ _ => 0
  mlipns := fun _ _ => 0
  overlap := fun _ _ => 0
  pfx := fun _ _ => 0
  ratcliff_obershelp := fun _ _ => 0
  roberts := fun _ _ => 0
  sift4_common := fun _ _ => 0
  sift4_simple := fun _ _ => 0
  smith_waterman := fun _ _ => 0
  sorensen_dice := fun _ _ => 0
  suffix := fun _ _ => 0
  tversky := fun _ _ => 0
  yujian_bo := fun _ _ => 0

/-- Modelled from the spec: the concrete metric table.  Only the levenshtein
entries carry spec-determined values. -/
def TDmodel : TextDistance where
  str := { zeroFns with
    levenshtein := fun s t => ((levenshteinDP s.data t.data : ℕ) : ℚ) }
  nstr := { zeroFns with
    levenshtein := fun s t =>
      ((levenshteinDP s.data t.data : ℕ) : ℚ) / ((max s.length t.length : ℕ) : ℚ) }

/-- Helper: the mkRat form of fract agrees with the f64::fract semantics, value
minus its truncation toward zero. -/
lemma fract_eq (v : ℚ) : fract v = v - (truncInt v : ℚ) := by
  have hd : ((v.den : ℕ) : ℚ) ≠ 0 := Nat.cast_ne_zero.mpr v.den_nz
  unfold fract
  rw [Rat.mkRat_eq_div]
  push_cast
  rw [sub_div, Rat.num_div_den, mul_comm, mul_div_cancel_right₀ _ hd]

/-- Helper: a rational with denominator one is its own numerator. -/
lemma num_cast_of_den_one (v : ℚ) (h : v.den = 1) : (v.num : ℚ) = v := by
  conv_rhs => rw [← Rat.num_div_den v]
  rw [h]
  simp

/-- Helper: truncation of a rational with denominator one is its numerator. -/
lemma truncInt_of_den_one (v : ℚ) (h : v.den = 1) : truncInt v = v.num := by
  unfold truncInt
  rw [h]
  simp

/-- Helper: the fractional part is zero exactly for the rationals with
denominator one, the exactly-integral values. -/
lemma fract_eq_zero_iff (v : ℚ) : fract v = 0 ↔ v.den = 1 := by
  rw [fract_eq, sub_eq_zero]
  constructor
  · intro h
    rw [h]
    exact Rat.den_intCast _
  · intro h
    rw [truncInt_of_den_one v h]
    exact (num_cast_of_den_one v h).symm

/-- C10: whenever the required positional string argument is absent, run
returns the "Expected a string as a parameter" error regardless of every flag
(in particular even when the list flag is set), and the algorithm listing is
produced exactly when the positional argument is present and the list flag is
set, because the argument check precedes the list-flag check. -/
theorem missing_positional_argument_errors (td : TextDistance)
    (normalize list : Bool) (algo : Option String) (all : Bool)
    (input : NuValue) :
    run td none normalize list algo all input =
      Except.error ⟨"Expected a string as a parameter", "found nothing"⟩
    ∧ ∀ c : String, run td (some c) normalize true algo all input =
      Except.ok list_algorithms :=
  ⟨rfl, fun _ => rfl⟩

/-- C9: when the all flag is set, the algorithm flag has no influence on the
output of run: any two values of the algorithm flag (present, absent, or
different) produce identical results for the same argument, flags and
pipeline input. -/
theorem all_flag_makes_algorithm_flag_irrelevant (td : TextDistance)
    (arg : Option String) (normalize list : Bool) (a1 a2 : Option String)
    (input : NuValue) :
    run td arg normalize list a1 true input =
      run td arg normalize list a2 true input := by
  cases arg <;> cases input <;> cases list <;> rfl

/-- C1 (failing direction): the two computation paths of run do not use the
same operand order.  The single-algorithm path computes the metric with the
pipeline input as first operand and the command argument as second, while the
all-algorithms path hands compute_all the command argument as first operand and
the pipeline input as second, so each report row computes the metric on
(argument, input) — the swapped order. -/
theorem run_all_path_swaps_operands (td : TextDistance)
    (compare_to input_val : String) (normalize : Bool)
    (algoFlag : Option String) (a : String) :
    run td (some compare_to) normalize false algoFlag true
        (NuValue.string input_val) =
      compute_all td compare_to input_val normalize
    ∧ compute_all td compare_to input_val normalize =
      Except.ok (NuValue.list (algos.map fun al =>
        NuValue.record [("algorithm", NuValue.string al),
          ("distance", coerceVal (compute td al compare_to input_val normalize))]))
    ∧ run td (some compare_to) normalize false (some a) false
        (NuValue.string input_val) =
      compare_strings td a compare_to normalize input_val
    ∧ compare_strings td a compare_to normalize input_val =
      Except.ok (coerceVal (compute td a input_val compare_to normalize)) := by
  refine ⟨rfl, rfl, rfl, ?_⟩
  rcases eq_or_ne (fract (compute td a input_val compare_to normalize)) 0 with h | h <;>
    simp [compare_strings, coerceVal, h]

/-- C4: compute_all never returns an error and its report is exactly the
25-row list, one coerced row per catalog entry, in the fixed catalog order of
spec §4.1 (bag first, yujian_bo last), for every pair of strings and every
normalize flag. -/
theorem compute_all_total_25_rows (td : TextDistance) (s1 s2 : String)
    (norm : Bool) :
    compute_all td s1 s2 norm =
      Except.ok (NuValue.list (algos.map fun al =>
        NuValue.record [("algorithm", NuValue.string al),
          ("distance", coerceVal (compute td al s1 s2 norm))]))
    ∧ (algos.map fun al =>
        NuValue.record [("algorithm", NuValue.string al),
          ("distance", coerceVal (compute td al s1 s2 norm))]).length = 25
    ∧ algos = canonicalNames
    ∧ algos.headD "" = "bag"
    ∧ algos.getLastD "" = "yujian_bo" :=
  ⟨rfl, by simp [algos], by decide, by decide, by decide⟩

/-- C6: list_algorithms is exactly the 25-row table of (canonical_name, alias)
records, in the fixed catalog order of spec §4.1 with exactly the name→alias
pairs listed there, and both the canonical names and the aliases are pairwise
distinct. -/
theorem list_algorithms_catalog :
    list_algorithms = NuValue.list (specCatalogPairs.map fun p =>
      NuValue.record [("algorithm", NuValue.string p.1),
        ("alias", NuValue.string p.2)])
    ∧ specCatalogPairs.length = 25
    ∧ (specCatalogPairs.map Prod.fst).Nodup
    ∧ (specCatalogPairs.map Prod.snd).Nodup :=
  ⟨rfl, by decide, by decide, by decide⟩

/-- C7 (counterexample): the combined collection of all 25 canonical names and
all 25 aliases, compared case-insensitively, is not duplicate-free: the string
"bag" occurs twice, once as the canonical name and once as the alias of the
bag entry. -/
theorem catalog_union_has_bag_twice :
    ((canonicalNames ++ aliasNames).map toLowerStr).count "bag" = 2
    ∧ ¬ ((canonicalNames ++ aliasNames).map toLowerStr).Nodup := by
  constructor
  · decide
  · decide

/-- C7 (amended): the canonical names are pairwise distinct, the aliases are
pairwise distinct (case-insensitively), and the only string occurring both as
a canonical name and as an alias is "bag", the alias of its own entry. -/
theorem catalog_names_aliases_unique_except_bag :
    (canonicalNames.map toLowerStr).Nodup
    ∧ (aliasNames.map toLowerStr).Nodup
    ∧ ∀ x ∈ canonicalNames.map toLowerStr,
        x ∈ aliasNames.map toLowerStr → x = "bag" := by
  refine ⟨by decide, by decide, by decide⟩

/-- C8 (counterexample): with the levenshtein metric the spec itself mandates
(the classic dynamic-programming edit distance), compute on ("nutshell",
"nushell") does not return 2: the dynamic-programming edit distance between
"nutshell" and "nushell" is 1 (deleting the single character t of "nutshell"
already yields "nushell"). -/
theorem nutshell_nushell_distance_not_two :
    compute TDmodel "levenshtein" "nutshell" "nushell" false ≠ 2
    ∧ levenshteinDP "nutshell".data "nushell".data = 1 := by
  constructor
  · decide
  · decide

/-- C8 (amended): compute with algorithm levenshtein, first operand
"nutshell", second operand "nushell" and normalize false returns exactly the
dynamic-programming edit distance between the two strings, which is 1, and the
coerced result is the integer 1. -/
theorem nutshell_nushell_distance_one :
    compute TDmodel "levenshtein" "nutshell" "nushell" false =
      ((levenshteinDP "nutshell".data "nushell".data : ℕ) : ℚ)
    ∧ levenshteinDP "nutshell".data "nushell".data = 1
    ∧ compare_strings TDmodel "levenshtein" "nushell" false "nutshell" =
      Except.ok (NuValue.int 1) := by
  refine ⟨rfl, by decide, ?_⟩
  rfl

/-- C2: resolution never fails; for every identifier whose lower-cased form
matches no catalog entry's canonical name or alias, compute returns exactly
the same number as compute with "levenshtein" on the same operands and flag,
for every metric table. -/
theorem unknown_identifier_falls_back_to_levenshtein (td : TextDistance)
    (idf s t : String) (norm : Bool)
    (h : toLowerStr idf ∉ canonicalNames ++ aliasNames) :
    compute td idf s t norm = compute td "levenshtein" s t norm := by
  simp only [canonicalNames, aliasNames, specCatalogPairs, List.map_cons,
    List.map_nil, List.cons_append, List.nil_append, List.mem_cons,
    List.not_mem_nil, or_false, not_or] at h
  obtain ⟨h1, h2, h3, h4, h5, h6, h7, h8, h9, h10, h11, h12, h13, h14, h15,
    h16, h17, h18, h19, h20, h21, h22, h23, h24, h25, h26, h27, h28, h29, h30,
    h31, h32, h33, h34, h35, h36, h37, h38, h39, h40, h41, h42, h43, h44, h45,
    h46, h47, h48, h49, h50⟩ := h
  show dispatch td (toLowerStr idf) s t norm = dispatch td "levenshtein" s t norm
  rw [show dispatch td "levenshtein" s t norm =
    (if norm then td.nstr.levenshtein s t else td.str.levenshtein s t) from rfl]
  simp [dispatch, h1, h2, h3, h4, h5, h6, h7, h8, h9, h10, h11, h12, h13, h14,
    h15, h16, h17, h18, h19, h20, h21, h22, h23, h24, h25, h26, h27, h28, h29,
    h30, h31, h32, h33, h34, h35, h36, h37, h38, h39, h40, h41, h42, h43, h44,
    h45, h46, h47, h48, h49, h50]

/-- C2 (witness): the concrete scenario of spec §8: the unmatched identifier
"unknown_algo_xyz" computes the same number as "levenshtein" on ("a", "b")
un-normalized. -/
theorem unknown_identifier_falls_back_witness :
    toLowerStr "unknown_algo_xyz" ∉ canonicalNames ++ aliasNames
    ∧ compute TDmodel "unknown_algo_xyz" "a" "b" false =
      compute TDmodel "levenshtein" "a" "b" false :=
  ⟨by decide, unknown_identifier_falls_back_to_levenshtein TDmodel
    "unknown_algo_xyz" "a" "b" false (by decide)⟩

/-- Helper: for every catalog entry, the match arm reached by the canonical
name and the one reached by the alias select the same metric. -/
lemma dispatch_name_alias (td : TextDistance) (s1 s2 : String) (norm : Bool) :
    ∀ p ∈ specCatalogPairs,
      dispatch td p.1 s1 s2 norm = dispatch td p.2 s1 s2 norm := by
  intro p hp
  fin_cases hp <;> rfl

/-- C5: for every catalog entry, compute invoked with the entry's alias, its
canonical name, or any upper/lower-case variant of either (any identifier
whose lower-cased form is the name or the alias) returns the identical number,
on the same operands and flag, for every metric table. -/
theorem alias_and_case_resolution_agree (td : TextDistance)
    (p : String × String) (hp : p ∈ specCatalogPairs) (u v s t : String)
    (norm : Bool)
    (hu : toLowerStr u = p.1 ∨ toLowerStr u = p.2)
    (hv : toLowerStr v = p.1 ∨ toLowerStr v = p.2) :
    compute td u s t norm = compute td v s t norm := by
  have key := dispatch_name_alias td s t norm p hp
  show dispatch td (toLowerStr u) s t norm = dispatch td (toLowerStr v) s t norm
  rcases hu with hu | hu <;> rcases hv with hv | hv <;> rw [hu, hv]
  · exact key
  · exact key.symm

/-- C5 (witness): the concrete scenario of spec §8 for the levenshtein entry:
the alias "lev" in upper case resolves exactly as the canonical name
"levenshtein" on ("nu", "nu") normalized. -/
theorem alias_and_case_resolution_agree_witness :
    ("levenshtein", "lev") ∈ specCatalogPairs
    ∧ compute TDmodel "LEV" "nu" "nu" true =
      compute TDmodel "levenshtein" "nu" "nu" true :=
  ⟨by decide, alias_and_case_resolution_agree TDmodel ("levenshtein", "lev")
    (by decide) "LEV" "levenshtein" "nu" "nu" true
    (Or.inr (by decide)) (Or.inl (by decide))⟩

/-- C3: the reported result is the coercion of the computed number, applied
independently to the single-algorithm result and to every row of the
all-algorithms report; and the coercion rule presents a number with
fractional part exactly zero as the exact integer (the integer cast back is
the number itself), and any other number as the fractional value unchanged. -/
theorem result_coercion_rule (td : TextDistance) (a arg input s1 s2 : String)
    (norm : Bool) :
    compare_strings td a arg norm input =
      Except.ok (coerceVal (compute td a input arg norm))
    ∧ compute_all td s1 s2 norm =
      Except.ok (NuValue.list (algos.map fun al =>
        NuValue.record [("algorithm", NuValue.string al),
          ("distance", coerceVal (compute td al s1 s2 norm))]))
    ∧ (∀ v : ℚ, fract v = 0 →
        coerceVal v = NuValue.int v.num ∧ ((v.num : ℚ) = v))
    ∧ (∀ v : ℚ, fract v ≠ 0 → coerceVal v = NuValue.float v) := by
  refine ⟨?_, rfl, ?_, ?_⟩
  · rcases eq_or_ne (fract (compute td a input arg norm)) 0 with h | h <;>
      simp [compare_strings, coerceVal, h]
  · intro v hv
    have hden : v.den = 1 := (fract_eq_zero_iff v).mp hv
    constructor
    · rw [coerceVal, if_pos hv, truncInt_of_den_one v hden]
    · exact num_cast_of_den_one v hden
  · intro v hv
    rw [coerceVal, if_neg hv]

/-- C3 (witness): the coercion at work on concrete values: a computed integer
value is reported as the exact integer, a computed non-integer value as the
unchanged fraction, and the single-algorithm path reports the coerced
computed number. -/
theorem result_coercion_rule_witness :
    compare_strings TDmodel "lev" "b" false "a" =
      Except.ok (coerceVal (compute TDmodel "lev" "a" "b" false))
    ∧ coerceVal (1 : ℚ) = NuValue.int 1
    ∧ coerceVal (mkRat 3 2) = NuValue.float (mkRat 3 2) := by
  obtain ⟨h1, _, h3, h4⟩ :=
    result_coercion_rule TDmodel "lev" "b" "a" "x" "y" false
  exact ⟨h1, (h3 1 (by decide)).1, h4 (mkRat 3 2) (by decide)⟩
